import Mathlib

/-!
Verification of the GNSS trip-tracking engine (`src/gnss_odometer/gnss_data.cpp`,
`gnss_data.h`) of the spresensewong repository.

The engine's global mutable state (the file-scope `g_*` variables of
`gnss_data.cpp`) is embedded as an explicit `GnssState` record, and each C++
function becomes a Lean function from state (plus the inputs the C++ code reads
from the device, the wall clock and the filesystem) to state.  Floating-point
quantities are modelled as exact rationals `ℚ`, `time_t`/`int32_t` quantities as
`ℤ`, and `std::vector` as `List`.  The geodesic `calculate_distance` (pure
trigonometry over doubles) is passed in as an abstract function argument
`dist`, and `strftime`-style formatting as an abstract `fmt : ℤ → String`;
no claim depends on either's concrete values.
-/

namespace SpresenseGnss

/-- Fix quality, `enum GnssFixType` of gnss_data.h. -/
inductive GnssFixType where
  | FIX_NONE
  | FIX_2D
  | FIX_3D
deriving DecidableEq

/-- One position fix, `struct GnssPoint` of gnss_data.h.  The C++ struct also
has a trailing `acceleration` field which is never written by any code
modelled here (it is left uninitialised by `gnss_get_position`); it is
omitted. -/
structure GnssPoint where
  latitude : ℚ
  longitude : ℚ
  altitude : ℚ
  speed : ℚ
  course : ℚ
  num_satellites : ℕ
  timestamp : ℤ
  fix_type : GnssFixType
deriving DecidableEq

/-- `struct SegmentData` of gnss_data.h. -/
structure SegmentData where
  distance : ℚ
  avg_speed : ℚ
  duration : ℤ
  start_time : ℤ
  end_time : ℤ
  point_count : ℕ
  moving_time : ℕ
  idle_time : ℕ
  moving_avg_speed : ℚ
  start_lat : ℚ
  start_lon : ℚ
  end_lat : ℚ
  end_lon : ℚ
  start_time_str : String
deriving DecidableEq

/-- `enum SegmentTimeOption` of gnss_data.h (values 60, 300, 600, 1800, and
the implicit 1801 for `SEGMENT_TIME_CUSTOM`). -/
inductive SegmentTimeOption where
  | oneMin
  | fiveMin
  | tenMin
  | thirtyMin
  | custom
deriving DecidableEq

/-- The numeric value of each enumerator, as produced by the C++ cast
`(uint32_t)option`. -/
def SegmentTimeOption.toNat : SegmentTimeOption → ℕ
  | .oneMin => 60
  | .fiveMin => 300
  | .tenMin => 600
  | .thirtyMin => 1800
  | .custom => 1801

/-- `struct SegmentSettings` of gnss_data.h. -/
structure SegmentSettings where
  enabled : Bool
  option : SegmentTimeOption
  custom_time_sec : ℕ
deriving DecidableEq

/-- `struct AccelerationData` of gnss_data.h. -/
structure AccelerationData where
  timestamp : ℤ
  time_0_30 : ℚ
  time_0_50 : ℚ
  max_speed_reached : ℚ
  date_time_str : String
deriving DecidableEq

/-- `struct TripData` of gnss_data.h. -/
structure TripData where
  total_distance : ℚ
  max_speed : ℚ
  avg_speed : ℚ
  duration : ℤ
  start_time : ℤ
  end_time : ℤ
  has_0_100_time : Bool
  time_0_100 : ℚ
  measuring_acceleration : Bool
  acceleration_start_time : ℤ
  time_0_30 : ℚ
  time_0_50 : ℚ
  reached_30kmh : Bool
  reached_50kmh : Bool
  max_altitude : ℚ
  min_altitude : ℚ
  segment_count : ℕ
  segments : List SegmentData
deriving DecidableEq

/-- The file-scope mutable globals of gnss_data.cpp (`g_running`,
`g_recording`, `g_last_point`, `g_current_point`, `g_has_last_point`,
`g_accel_start`, `g_accel_start_time`, `g_speed_threshold_kmh`,
`g_acceleration_history`, `g_trip_data`, `g_track_points`,
`g_segment_settings`, `g_last_gps_time`, `g_last_segment_time`,
`g_has_lost_fix`).  The device handle `g_fd` and update rate `g_rate` are
device I/O details: a successful `open` plus `g_running` is summarised by the
`running` flag. -/
structure GnssState where
  running : Bool
  recording : Bool
  last_point : GnssPoint
  current_point : GnssPoint
  has_last_point : Bool
  accel_start : Bool
  accel_start_time : ℚ
  speed_threshold_kmh : ℚ
  acceleration_history : List AccelerationData
  trip_data : TripData
  track_points : List GnssPoint
  segment_settings : SegmentSettings
  last_gps_time : ℤ
  last_segment_time : ℤ
  has_lost_fix : Bool
deriving DecidableEq

/-- The fields of `struct cxd56_gnss_receiver_s` that `gnss_get_position`
reads from one raw receiver sample. -/
structure RawReceiverData where
  pos_fixmode : ℕ
  latitude : ℚ
  longitude : ℚ
  altitude : ℚ
  velocity : ℚ
  direction : ℚ
  pos_svs : ℕ
deriving DecidableEq

/-- The `switch (posdat.receiver.pos_fixmode)` of gnss_data.cpp lines
231-245: case 1 → FIX_NONE; case 2 → FIX_2D; cases 3 and 4 → FIX_3D;
default → FIX_NONE. -/
def fixModeToFixType (mode : ℕ) : GnssFixType :=
  match mode with
  | 1 => GnssFixType.FIX_NONE
  | 2 => GnssFixType.FIX_2D
  | 3 => GnssFixType.FIX_3D
  | 4 => GnssFixType.FIX_3D
  | _ => GnssFixType.FIX_NONE

/-- Effective segment threshold in seconds, the expression
`g_segment_settings.option == SEGMENT_TIME_CUSTOM ? custom_time_sec :
(uint32_t)option` of gnss_data.cpp lines 206-208 (and 283-285). -/
def segmentTimeSeconds (s : SegmentSettings) : ℕ :=
  if s.option = SegmentTimeOption.custom then s.custom_time_sec else s.option.toNat

/-- Apply `f` to the last element of a list (`std::vector::back()` mutation). -/
def updateLast {α : Type} (f : α → α) : List α → List α
  | [] => []
  | [a] => [f a]
  | a :: b :: rest => a :: updateLast f (b :: rest)

/-- The per-segment mutation of gnss_data.cpp lines 265-275: add `d` to the
open segment's distance, set its end_time to `ts`, recompute duration and
point_count, and recompute avg_speed when duration > 0. -/
def segAccum (d : ℚ) (ts : ℤ) (seg : SegmentData) : SegmentData :=
  let seg := { seg with distance := seg.distance + d, end_time := ts }
  let seg := { seg with duration := seg.end_time - seg.start_time,
                        point_count := seg.point_count + 1 }
  if seg.duration > 0 then
    { seg with avg_speed := seg.distance / (seg.duration : ℚ) }
  else seg

/-- gnss_data.cpp lines 263-276: if the segment list is non-empty, apply
`segAccum` to the open (last) segment. -/
def updateCurrentSegment (td : TripData) (d : ℚ) (ts : ℤ) : TripData :=
  if td.segments = [] then td
  else
    { td with segments := updateLast (segAccum d ts) td.segments }

/-- `gnss_create_new_segment` (gnss_data.cpp lines 876-909): build a zeroed
segment stamped `now`, seed its start position from `g_current_point` when a
fix exists, append it and mirror the list length into `segment_count`. -/
def gnss_create_new_segment (fmt : ℤ → String) (st : GnssState) (now : ℤ) : GnssState :=
  let segment : SegmentData :=
    { distance := 0, avg_speed := 0, duration := 0,
      start_time := now, end_time := now, point_count := 0,
      moving_time := 0, idle_time := 0, moving_avg_speed := 0,
      start_lat := if st.current_point.fix_type ≠ GnssFixType.FIX_NONE
                   then st.current_point.latitude else 0,
      start_lon := if st.current_point.fix_type ≠ GnssFixType.FIX_NONE
                   then st.current_point.longitude else 0,
      end_lat := 0, end_lon := 0,
      start_time_str := fmt now }
  let segs := st.trip_data.segments ++ [segment]
  { st with trip_data := { st.trip_data with segments := segs, segment_count := segs.length } }

/-- `gnss_reset_trip` (gnss_data.cpp lines 370-392). -/
def gnss_reset_trip (st : GnssState) : GnssState :=
  { st with
    trip_data := { st.trip_data with
      total_distance := 0, max_speed := 0, avg_speed := 0, duration := 0,
      start_time := 0, end_time := 0,
      has_0_100_time := false, time_0_100 := 0,
      max_altitude := 0, min_altitude := 0,
      segment_count := 0, segments := [] },
    last_segment_time := 0, last_gps_time := 0, has_lost_fix := false,
    accel_start := false, accel_start_time := 0 }

/-- `gnss_detect_acceleration` (gnss_data.cpp lines 447-475). -/
def gnss_detect_acceleration (st : GnssState) : GnssState :=
  if st.trip_data.has_0_100_time ∨ st.current_point.fix_type = GnssFixType.FIX_NONE then st
  else
    let speed_kmh := st.current_point.speed * (18/5)
    if ¬ st.accel_start ∧ speed_kmh < st.speed_threshold_kmh then st
    else
      let st :=
        if ¬ st.accel_start then
          { st with accel_start := true, accel_start_time := (st.trip_data.duration : ℚ) }
        else st
      if st.accel_start ∧ speed_kmh ≥ 100 then
        { st with trip_data := { st.trip_data with
            has_0_100_time := true,
            time_0_100 := (st.trip_data.duration : ℚ) - st.accel_start_time } }
      else st

/-- gnss_data.cpp lines 204-216: while recording with segmenting enabled and a
prior counted fix, if `now - g_last_gps_time` reaches the configured segment
time, set `g_has_lost_fix` (only when not already set). -/
def gnss_gap_detect (st : GnssState) (now : ℤ) : GnssState :=
  if st.recording ∧ st.segment_settings.enabled ∧ st.last_gps_time > 0 then
    if now - st.last_gps_time ≥ (segmentTimeSeconds st.segment_settings : ℤ) then
      if ¬ st.has_lost_fix then { st with has_lost_fix := true } else st
    else st
  else st

/-- The `new_point` built at gnss_data.cpp lines 221-245 from a raw sample. -/
def mkNewPoint (posdat : RawReceiverData) (now : ℤ) : GnssPoint :=
  { latitude := posdat.latitude, longitude := posdat.longitude,
    altitude := posdat.altitude, speed := posdat.velocity,
    course := posdat.direction, num_satellites := posdat.pos_svs,
    timestamp := now,
    fix_type := fixModeToFixType posdat.pos_fixmode }

/-- gnss_data.cpp lines 247-296: the `if (g_has_last_point)` block.  Rotates
`g_last_point := g_current_point`; while recording with a non-None fix,
computes the distance increment, accumulates it when `> 0.5` (updating the
open segment, resetting `g_last_gps_time`, and creating a new segment when a
fix loss had been flagged with segmenting enabled), and appends the point to
the track. -/
def gnss_process_fix (dist : ℚ → ℚ → ℚ → ℚ → ℚ) (fmt : ℤ → String)
    (st : GnssState) (new_point : GnssPoint) (now : ℤ) : GnssState :=
  if st.has_last_point then
    let st := { st with last_point := st.current_point }
    if st.recording ∧ new_point.fix_type ≠ GnssFixType.FIX_NONE then
      let d := dist st.last_point.latitude st.last_point.longitude
                    new_point.latitude new_point.longitude
      let st :=
        if d > 1/2 then
          let st := { st with
            trip_data := updateCurrentSegment
              { st.trip_data with total_distance := st.trip_data.total_distance + d }
              d new_point.timestamp,
            last_gps_time := new_point.timestamp }
          if st.has_lost_fix ∧ st.segment_settings.enabled then
            let st := gnss_create_new_segment fmt st now
            { st with last_segment_time := new_point.timestamp, has_lost_fix := false }
          else st
        else st
      { st with track_points := st.track_points ++ [new_point] }
    else st
  else st

/-- `gnss_get_position` (gnss_data.cpp lines 185-303).  `readData = none`
models a failed/short `read`; `now` is the wall clock (`time(NULL)`); `point`
is the content of the caller's `GnssPoint*` buffer.  Returns the new state,
the C++ return value, and the buffer content after the call (the C++ function
never dereferences `point`). -/
def gnss_get_position (dist : ℚ → ℚ → ℚ → ℚ → ℚ) (fmt : ℤ → String)
    (st : GnssState) (readData : Option RawReceiverData) (now : ℤ)
    (point : GnssPoint) : GnssState × Bool × GnssPoint :=
  if ¬ st.running then (st, false, point)
  else
    match readData with
    | none => (st, false, point)
    | some posdat =>
      let st1 := gnss_gap_detect st now
      if posdat.pos_fixmode ≠ 0 then
        let new_point := mkNewPoint posdat now
        let st2 := gnss_process_fix dist fmt st1 new_point now
        (gnss_detect_acceleration st2, true, point)
      else (st1, true, point)

/-- `gnss_start_acceleration_measurement` (gnss_data.cpp lines 480-496). -/
def gnss_start_acceleration_measurement (st : GnssState) (now : ℤ) : GnssState :=
  if st.current_point.fix_type = GnssFixType.FIX_NONE ∨ st.trip_data.measuring_acceleration then
    st
  else
    { st with trip_data := { st.trip_data with
        measuring_acceleration := true,
        acceleration_start_time := now,
        time_0_30 := -1, time_0_50 := -1,
        reached_30kmh := false, reached_50kmh := false } }

/-- `gnss_save_acceleration_data` (gnss_data.cpp lines 574-582, the in-memory
part): insert the record at the head of the history, then truncate to the 50
most recent entries (`resize(50)` when `size() > 50`).  The subsequent JSON
file write mirrors this list. -/
def gnss_save_acceleration_data (hist : List AccelerationData)
    (data : AccelerationData) : List AccelerationData :=
  let h := data :: hist
  if h.length > 50 then h.take 50 else h

/-- `gnss_stop_acceleration_measurement` (gnss_data.cpp lines 501-528). -/
def gnss_stop_acceleration_measurement (fmt : ℤ → String) (st : GnssState)
    (now : ℤ) (save_result : Bool) : GnssState :=
  if ¬ st.trip_data.measuring_acceleration then st
  else
    let st :=
      if save_result ∧ (st.trip_data.reached_30kmh ∨ st.trip_data.reached_50kmh) then
        let data : AccelerationData :=
          { timestamp := now,
            time_0_30 := st.trip_data.time_0_30,
            time_0_50 := st.trip_data.time_0_50,
            max_speed_reached := st.trip_data.max_speed * (18/5),
            date_time_str := fmt now }
        { st with acceleration_history := gnss_save_acceleration_data st.acceleration_history data }
      else st
    { st with trip_data := { st.trip_data with measuring_acceleration := false } }

/-- `gnss_check_acceleration_measurement` (gnss_data.cpp lines 533-569). -/
def gnss_check_acceleration_measurement (fmt : ℤ → String) (st : GnssState)
    (point : GnssPoint) (now : ℤ) : GnssState :=
  if ¬ st.trip_data.measuring_acceleration ∨ point.fix_type = GnssFixType.FIX_NONE then st
  else
    let speed_kmh := point.speed * (18/5)
    let st :=
      if ¬ st.trip_data.reached_30kmh ∧ speed_kmh ≥ 30 then
        { st with trip_data := { st.trip_data with
            time_0_30 := ((now - st.trip_data.acceleration_start_time : ℤ) : ℚ),
            reached_30kmh := true } }
      else st
    let st :=
      if ¬ st.trip_data.reached_50kmh ∧ speed_kmh ≥ 50 then
        gnss_stop_acceleration_measurement fmt
          { st with trip_data := { st.trip_data with
              time_0_50 := ((now - st.trip_data.acceleration_start_time : ℤ) : ℚ),
              reached_50kmh := true } }
          now true
      else st
    if now - st.trip_data.acceleration_start_time > 60 then
      gnss_stop_acceleration_measurement fmt st now false
    else st

/-- `gnss_get_acceleration_history` (gnss_data.cpp lines 625-745), as a
function of the in-memory list and the parse result of the history file:
a non-empty in-memory history is returned as-is; otherwise every object
parsed from the file is appended (`push_back`), with no capacity check;
a missing file leaves the history empty. -/
def gnss_get_acceleration_history (mem : List AccelerationData)
    (fileRecs : Option (List AccelerationData)) : List AccelerationData :=
  if ¬ mem.isEmpty then mem
  else
    match fileRecs with
    | none => mem
    | some recs => mem ++ recs

/-- `gnss_get_acceleration_data` (gnss_data.cpp lines 763-775): load the
history from file when the in-memory list is empty, then bounds-check the
index. -/
def gnss_get_acceleration_data (mem : List AccelerationData)
    (fileRecs : Option (List AccelerationData)) (index : ℕ) : Option AccelerationData :=
  let hist := if mem.isEmpty then gnss_get_acceleration_history mem fileRecs else mem
  if index ≥ hist.length then none else hist[index]?

/-- `gnss_get_segment_data` (gnss_data.cpp lines 865-871). -/
def gnss_get_segment_data (segments : List SegmentData) (index : ℕ) : Option SegmentData :=
  if index < segments.length then segments[index]? else none

/-- `gnss_start_recording` (gnss_data.cpp lines 324-338). -/
def gnss_start_recording (fmt : ℤ → String) (st : GnssState) (now : ℤ) : GnssState :=
  if st.recording then st
  else
    let st := gnss_reset_trip { st with recording := true, track_points := [] }
    let st := { st with trip_data := { st.trip_data with start_time := now, end_time := now } }
    gnss_create_new_segment fmt st now

/-! ### Concrete sample data, used to evaluate the model on explicit inputs -/

/-- A trivial time formatter standing in for `strftime`. -/
def fmt0 : ℤ → String := fun _ => ""

/-- A constant geodesic distance function, for exercising the distance
thresholds with an explicit increment. -/
def distConst (q : ℚ) : ℚ → ℚ → ℚ → ℚ → ℚ := fun _ _ _ _ => q

/-- The zero-initialised `GnssPoint` of the C++ statics. -/
def pointZero : GnssPoint :=
  { latitude := 0, longitude := 0, altitude := 0, speed := 0, course := 0,
    num_satellites := 0, timestamp := 0, fix_type := GnssFixType.FIX_NONE }

/-- A 3D fix moving at 10 m/s. -/
def point3D : GnssPoint :=
  { latitude := 1, longitude := 1, altitude := 10, speed := 10, course := 0,
    num_satellites := 8, timestamp := 50, fix_type := GnssFixType.FIX_3D }

/-- A valid fix at walking speed (1 m/s = 3.6 km/h). -/
def pointSlow : GnssPoint := { point3D with speed := 1 }

/-- A raw sample with `pos_fixmode = 3` (a 3D fix). -/
def posdat3 : RawReceiverData :=
  { pos_fixmode := 3, latitude := 1, longitude := 1, altitude := 10,
    velocity := 10, direction := 0, pos_svs := 8 }

/-- A raw sample with `pos_fixmode = 0` (no fix). -/
def posdat0 : RawReceiverData := { posdat3 with pos_fixmode := 0 }

/-- A freshly created zeroed segment. -/
def seg0 : SegmentData :=
  { distance := 0, avg_speed := 0, duration := 0, start_time := 0, end_time := 0,
    point_count := 0, moving_time := 0, idle_time := 0, moving_avg_speed := 0,
    start_lat := 0, start_lon := 0, end_lat := 0, end_lon := 0, start_time_str := "" }

/-- Trip data as left by `gnss_reset_trip` on the zero-initialised statics. -/
def trip0 : TripData :=
  { total_distance := 0, max_speed := 0, avg_speed := 0, duration := 0,
    start_time := 0, end_time := 0, has_0_100_time := false, time_0_100 := 0,
    measuring_acceleration := false, acceleration_start_time := 0,
    time_0_30 := 0, time_0_50 := 0, reached_30kmh := false, reached_50kmh := false,
    max_altitude := 0, min_altitude := 0, segment_count := 0, segments := [] }

/-- The default segment settings of gnss_data.cpp lines 40-44. -/
def settingsOn : SegmentSettings :=
  { enabled := true, option := SegmentTimeOption.fiveMin, custom_time_sec := 300 }

/-- The zero/default-initialised global state of gnss_data.cpp. -/
def state0 : GnssState :=
  { running := false, recording := false, last_point := pointZero,
    current_point := point3D, has_last_point := false,
    accel_start := false, accel_start_time := 0, speed_threshold_kmh := 5,
    acceleration_history := [], trip_data := trip0, track_points := [],
    segment_settings := settingsOn, last_gps_time := 0, last_segment_time := 0,
    has_lost_fix := false }

/-- A state in the middle of a recording: started, recording, one open
segment, a previous point available, a current 3D fix. -/
def stRec : GnssState :=
  { state0 with
    running := true, recording := true, has_last_point := true,
    trip_data := { trip0 with segments := [seg0], segment_count := 1 } }

/-- `stRec` with the segmenting feature disabled. -/
def stFixedSeg : GnssState :=
  { stRec with segment_settings := { settingsOn with enabled := false } }

/-- `stRec` after a fix loss has been flagged. -/
def stLost : GnssState := { stRec with has_lost_fix := true }

/-- `stRec` with a counted fix 301 seconds in the past (threshold 300 s). -/
def stGapReady : GnssState := { stRec with last_gps_time := 1 }

/-- `stRec` with a counted fix 10 seconds in the past. -/
def stFresh : GnssState := { stRec with last_gps_time := 90 }

/-- `stRec` with a manual acceleration measurement armed at t = 0. -/
def stMeas : GnssState :=
  { stRec with trip_data := { stRec.trip_data with
      measuring_acceleration := true, acceleration_start_time := 0,
      time_0_30 := -1, time_0_50 := -1,
      reached_30kmh := false, reached_50kmh := false } }

/-- `stRec` with the automatic 0-100 result already latched. -/
def stLatched : GnssState :=
  { stRec with trip_data := { stRec.trip_data with has_0_100_time := true, time_0_100 := 7 } }

/-- An empty acceleration record. -/
def accelRec0 : AccelerationData :=
  { timestamp := 0, time_0_30 := -1, time_0_50 := -1, max_speed_reached := 0,
    date_time_str := "" }

/-- Fold `gnss_check_acceleration_measurement` over a list of (fix, time)
samples, the per-poll call sequence of a manual measurement run. -/
def runChecks (fmt : ℤ → String) (st : GnssState) : List (GnssPoint × ℤ) → GnssState
  | [] => st
  | (p, t) :: rest => runChecks fmt (gnss_check_acceleration_measurement fmt st p t) rest

/-! ### Helper lemmas: frame facts about each operation -/

theorem updateLast_length {α : Type} (f : α → α) : ∀ l : List α, (updateLast f l).length = l.length
  | [] => rfl
  | [_] => rfl
  | _ :: b :: rest => by
      simp only [updateLast, List.length_cons, updateLast_length f (b :: rest)]

theorem updateCurrentSegment_frame (td : TripData) (d : ℚ) (ts : ℤ) :
    ∃ segs, updateCurrentSegment td d ts = { td with segments := segs } := by
  unfold updateCurrentSegment
  split
  · exact ⟨td.segments, rfl⟩
  · exact ⟨_, rfl⟩

theorem updateCurrentSegment_length (td : TripData) (d : ℚ) (ts : ℤ) :
    (updateCurrentSegment td d ts).segments.length = td.segments.length := by
  unfold updateCurrentSegment
  split
  · rfl
  · simp [updateLast_length]

theorem updateCurrentSegment_proj (td : TripData) (d : ℚ) (ts : ℤ) :
    (updateCurrentSegment td d ts).total_distance = td.total_distance ∧
    (updateCurrentSegment td d ts).max_speed = td.max_speed ∧
    (updateCurrentSegment td d ts).avg_speed = td.avg_speed ∧
    (updateCurrentSegment td d ts).duration = td.duration ∧
    (updateCurrentSegment td d ts).start_time = td.start_time ∧
    (updateCurrentSegment td d ts).end_time = td.end_time ∧
    (updateCurrentSegment td d ts).has_0_100_time = td.has_0_100_time ∧
    (updateCurrentSegment td d ts).time_0_100 = td.time_0_100 ∧
    (updateCurrentSegment td d ts).measuring_acceleration = td.measuring_acceleration ∧
    (updateCurrentSegment td d ts).acceleration_start_time = td.acceleration_start_time ∧
    (updateCurrentSegment td d ts).time_0_30 = td.time_0_30 ∧
    (updateCurrentSegment td d ts).time_0_50 = td.time_0_50 ∧
    (updateCurrentSegment td d ts).reached_30kmh = td.reached_30kmh ∧
    (updateCurrentSegment td d ts).reached_50kmh = td.reached_50kmh ∧
    (updateCurrentSegment td d ts).max_altitude = td.max_altitude ∧
    (updateCurrentSegment td d ts).min_altitude = td.min_altitude ∧
    (updateCurrentSegment td d ts).segment_count = td.segment_count := by
  obtain ⟨segs, h⟩ := updateCurrentSegment_frame td d ts
  rw [h]
  repeat' apply And.intro
  all_goals rfl

theorem create_segment_frame (fmt : ℤ → String) (st : GnssState) (now : ℤ) :
    ∃ segs, gnss_create_new_segment fmt st now =
      { st with trip_data := { st.trip_data with segments := segs, segment_count := segs.length } } := by
  unfold gnss_create_new_segment
  exact ⟨_, rfl⟩

theorem create_segment_length (fmt : ℤ → String) (st : GnssState) (now : ℤ) :
    (gnss_create_new_segment fmt st now).trip_data.segments.length
      = st.trip_data.segments.length + 1 := by
  unfold gnss_create_new_segment
  simp

theorem create_segment_proj (fmt : ℤ → String) (st : GnssState) (now : ℤ) :
    (gnss_create_new_segment fmt st now).running = st.running ∧
    (gnss_create_new_segment fmt st now).recording = st.recording ∧
    (gnss_create_new_segment fmt st now).last_point = st.last_point ∧
    (gnss_create_new_segment fmt st now).current_point = st.current_point ∧
    (gnss_create_new_segment fmt st now).has_last_point = st.has_last_point ∧
    (gnss_create_new_segment fmt st now).accel_start = st.accel_start ∧
    (gnss_create_new_segment fmt st now).accel_start_time = st.accel_start_time ∧
    (gnss_create_new_segment fmt st now).speed_threshold_kmh = st.speed_threshold_kmh ∧
    (gnss_create_new_segment fmt st now).acceleration_history = st.acceleration_history ∧
    (gnss_create_new_segment fmt st now).track_points = st.track_points ∧
    (gnss_create_new_segment fmt st now).segment_settings = st.segment_settings ∧
    (gnss_create_new_segment fmt st now).last_gps_time = st.last_gps_time ∧
    (gnss_create_new_segment fmt st now).last_segment_time = st.last_segment_time ∧
    (gnss_create_new_segment fmt st now).has_lost_fix = st.has_lost_fix ∧
    (gnss_create_new_segment fmt st now).trip_data.total_distance = st.trip_data.total_distance ∧
    (gnss_create_new_segment fmt st now).trip_data.max_speed = st.trip_data.max_speed ∧
    (gnss_create_new_segment fmt st now).trip_data.avg_speed = st.trip_data.avg_speed ∧
    (gnss_create_new_segment fmt st now).trip_data.duration = st.trip_data.duration ∧
    (gnss_create_new_segment fmt st now).trip_data.has_0_100_time = st.trip_data.has_0_100_time ∧
    (gnss_create_new_segment fmt st now).trip_data.time_0_100 = st.trip_data.time_0_100 ∧
    (gnss_create_new_segment fmt st now).trip_data.measuring_acceleration = st.trip_data.measuring_acceleration ∧
    (gnss_create_new_segment fmt st now).trip_data.acceleration_start_time = st.trip_data.acceleration_start_time ∧
    (gnss_create_new_segment fmt st now).trip_data.time_0_30 = st.trip_data.time_0_30 ∧
    (gnss_create_new_segment fmt st now).trip_data.time_0_50 = st.trip_data.time_0_50 ∧
    (gnss_create_new_segment fmt st now).trip_data.reached_30kmh = st.trip_data.reached_30kmh ∧
    (gnss_create_new_segment fmt st now).trip_data.reached_50kmh = st.trip_data.reached_50kmh ∧
    (gnss_create_new_segment fmt st now).trip_data.start_time = st.trip_data.start_time ∧
    (gnss_create_new_segment fmt st now).trip_data.end_time = st.trip_data.end_time ∧
    (gnss_create_new_segment fmt st now).trip_data.max_altitude = st.trip_data.max_altitude ∧
    (gnss_create_new_segment fmt st now).trip_data.min_altitude = st.trip_data.min_altitude := by
  obtain ⟨segs, h⟩ := create_segment_frame fmt st now
  rw [h]
  repeat' apply And.intro
  all_goals rfl

theorem gap_detect_frame (st : GnssState) (now : ℤ) :
    ∃ b, gnss_gap_detect st now = { st with has_lost_fix := b } := by
  unfold gnss_gap_detect
  repeat' split
  all_goals exact ⟨_, rfl⟩

theorem gap_detect_latched (st : GnssState) (now : ℤ) (h : st.has_lost_fix = true) :
    gnss_gap_detect st now = st := by
  unfold gnss_gap_detect
  repeat' split
  all_goals simp_all

theorem gap_detect_no_gap (st : GnssState) (now : ℤ)
    (h : now - st.last_gps_time < (segmentTimeSeconds st.segment_settings : ℤ)) :
    gnss_gap_detect st now = st := by
  unfold gnss_gap_detect
  repeat' split
  all_goals first | rfl | omega

theorem gap_detect_sets (st : GnssState) (now : ℤ)
    (hrec : st.recording = true) (hen : st.segment_settings.enabled = true)
    (hgl : st.last_gps_time > 0)
    (hgap : now - st.last_gps_time ≥ (segmentTimeSeconds st.segment_settings : ℤ))
    (hflag : st.has_lost_fix = false) :
    gnss_gap_detect st now = { st with has_lost_fix := true } := by
  unfold gnss_gap_detect
  simp [hrec, hen, hgl, hgap, hflag]

theorem detect_frame (st : GnssState) :
    ∃ a t f v, gnss_detect_acceleration st =
      { st with
        accel_start := a, accel_start_time := t,
        trip_data := { st.trip_data with has_0_100_time := f, time_0_100 := v } } := by
  simp only [gnss_detect_acceleration]
  repeat' split
  all_goals exact ⟨_, _, _, _, rfl⟩

theorem detect_latched (st : GnssState) (h : st.trip_data.has_0_100_time = true) :
    gnss_detect_acceleration st = st := by
  unfold gnss_detect_acceleration
  rw [if_pos (Or.inl h)]

theorem detect_proj (st : GnssState) :
    (gnss_detect_acceleration st).running = st.running ∧
    (gnss_detect_acceleration st).recording = st.recording ∧
    (gnss_detect_acceleration st).last_point = st.last_point ∧
    (gnss_detect_acceleration st).current_point = st.current_point ∧
    (gnss_detect_acceleration st).has_last_point = st.has_last_point ∧
    (gnss_detect_acceleration st).speed_threshold_kmh = st.speed_threshold_kmh ∧
    (gnss_detect_acceleration st).acceleration_history = st.acceleration_history ∧
    (gnss_detect_acceleration st).track_points = st.track_points ∧
    (gnss_detect_acceleration st).segment_settings = st.segment_settings ∧
    (gnss_detect_acceleration st).last_gps_time = st.last_gps_time ∧
    (gnss_detect_acceleration st).last_segment_time = st.last_segment_time ∧
    (gnss_detect_acceleration st).has_lost_fix = st.has_lost_fix ∧
    (gnss_detect_acceleration st).trip_data.total_distance = st.trip_data.total_distance ∧
    (gnss_detect_acceleration st).trip_data.max_speed = st.trip_data.max_speed ∧
    (gnss_detect_acceleration st).trip_data.avg_speed = st.trip_data.avg_speed ∧
    (gnss_detect_acceleration st).trip_data.duration = st.trip_data.duration ∧
    (gnss_detect_acceleration st).trip_data.measuring_acceleration = st.trip_data.measuring_acceleration ∧
    (gnss_detect_acceleration st).trip_data.max_altitude = st.trip_data.max_altitude ∧
    (gnss_detect_acceleration st).trip_data.min_altitude = st.trip_data.min_altitude ∧
    (gnss_detect_acceleration st).trip_data.segment_count = st.trip_data.segment_count ∧
    (gnss_detect_acceleration st).trip_data.segments = st.trip_data.segments := by
  obtain ⟨a, t, f, v, h⟩ := detect_frame st
  rw [h]
  repeat' apply And.intro
  all_goals rfl

theorem process_fix_proj (dist : ℚ → ℚ → ℚ → ℚ → ℚ) (fmt : ℤ → String)
    (st : GnssState) (p : GnssPoint) (now : ℤ) :
    (gnss_process_fix dist fmt st p now).running = st.running ∧
    (gnss_process_fix dist fmt st p now).recording = st.recording ∧
    (gnss_process_fix dist fmt st p now).current_point = st.current_point ∧
    (gnss_process_fix dist fmt st p now).has_last_point = st.has_last_point ∧
    (gnss_process_fix dist fmt st p now).accel_start = st.accel_start ∧
    (gnss_process_fix dist fmt st p now).accel_start_time = st.accel_start_time ∧
    (gnss_process_fix dist fmt st p now).speed_threshold_kmh = st.speed_threshold_kmh ∧
    (gnss_process_fix dist fmt st p now).acceleration_history = st.acceleration_history ∧
    (gnss_process_fix dist fmt st p now).segment_settings = st.segment_settings ∧
    (gnss_process_fix dist fmt st p now).trip_data.max_speed = st.trip_data.max_speed ∧
    (gnss_process_fix dist fmt st p now).trip_data.avg_speed = st.trip_data.avg_speed ∧
    (gnss_process_fix dist fmt st p now).trip_data.duration = st.trip_data.duration ∧
    (gnss_process_fix dist fmt st p now).trip_data.has_0_100_time = st.trip_data.has_0_100_time ∧
    (gnss_process_fix dist fmt st p now).trip_data.time_0_100 = st.trip_data.time_0_100 ∧
    (gnss_process_fix dist fmt st p now).trip_data.measuring_acceleration = st.trip_data.measuring_acceleration ∧
    (gnss_process_fix dist fmt st p now).trip_data.acceleration_start_time = st.trip_data.acceleration_start_time ∧
    (gnss_process_fix dist fmt st p now).trip_data.time_0_30 = st.trip_data.time_0_30 ∧
    (gnss_process_fix dist fmt st p now).trip_data.time_0_50 = st.trip_data.time_0_50 ∧
    (gnss_process_fix dist fmt st p now).trip_data.reached_30kmh = st.trip_data.reached_30kmh ∧
    (gnss_process_fix dist fmt st p now).trip_data.reached_50kmh = st.trip_data.reached_50kmh ∧
    (gnss_process_fix dist fmt st p now).trip_data.max_altitude = st.trip_data.max_altitude ∧
    (gnss_process_fix dist fmt st p now).trip_data.min_altitude = st.trip_data.min_altitude := by
  simp only [gnss_process_fix]
  repeat' split
  all_goals repeat' apply And.intro
  all_goals simp [updateCurrentSegment_proj, create_segment_proj]

theorem process_fix_resume (dist : ℚ → ℚ → ℚ → ℚ → ℚ) (fmt : ℤ → String)
    (st : GnssState) (p : GnssPoint) (now : ℤ)
    (hlp : st.has_last_point = true) (hrec : st.recording = true)
    (hfixp : p.fix_type ≠ GnssFixType.FIX_NONE)
    (hflag : st.has_lost_fix = true) (hen : st.segment_settings.enabled = true)
    (hd : dist st.current_point.latitude st.current_point.longitude
            p.latitude p.longitude > 1/2) :
    (gnss_process_fix dist fmt st p now).trip_data.segments.length
        = st.trip_data.segments.length + 1 ∧
    (gnss_process_fix dist fmt st p now).has_lost_fix = false := by
  have hd2 : (2 : ℚ)⁻¹ < dist st.current_point.latitude st.current_point.longitude
      p.latitude p.longitude := by
    rw [← one_div]; exact hd
  simp only [gnss_process_fix]
  simp [hlp, hrec, hfixp, hflag, hen, hd2, create_segment_length, updateCurrentSegment_length]

theorem process_fix_no_resume (dist : ℚ → ℚ → ℚ → ℚ → ℚ) (fmt : ℤ → String)
    (st : GnssState) (p : GnssPoint) (now : ℤ)
    (hflag : st.has_lost_fix = false) :
    (gnss_process_fix dist fmt st p now).trip_data.segments.length
        = st.trip_data.segments.length ∧
    (gnss_process_fix dist fmt st p now).has_lost_fix = false := by
  simp only [gnss_process_fix]
  repeat' split
  all_goals simp_all [updateCurrentSegment_length]

theorem stop_no_save_proj (fmt : ℤ → String) (st : GnssState) (now : ℤ) :
    (gnss_stop_acceleration_measurement fmt st now false).acceleration_history
        = st.acceleration_history ∧
    (gnss_stop_acceleration_measurement fmt st now false).trip_data.time_0_30
        = st.trip_data.time_0_30 ∧
    (gnss_stop_acceleration_measurement fmt st now false).trip_data.time_0_50
        = st.trip_data.time_0_50 ∧
    (gnss_stop_acceleration_measurement fmt st now false).trip_data.reached_30kmh
        = st.trip_data.reached_30kmh ∧
    (gnss_stop_acceleration_measurement fmt st now false).trip_data.reached_50kmh
        = st.trip_data.reached_50kmh ∧
    (gnss_stop_acceleration_measurement fmt st now false).trip_data.acceleration_start_time
        = st.trip_data.acceleration_start_time ∧
    (gnss_stop_acceleration_measurement fmt st now false).trip_data.measuring_acceleration
        = false := by
  unfold gnss_stop_acceleration_measurement
  split
  all_goals simp_all

theorem check_not_measuring (fmt : ℤ → String) (st : GnssState) (p : GnssPoint) (t : ℤ)
    (h : st.trip_data.measuring_acceleration = false) :
    gnss_check_acceleration_measurement fmt st p t = st := by
  unfold gnss_check_acceleration_measurement
  rw [if_pos (Or.inl (by simp [h]))]

theorem check_slow_proj (fmt : ℤ → String) (st : GnssState) (p : GnssPoint) (t : ℤ)
    (h50 : p.speed * (18/5) < 50) :
    (gnss_check_acceleration_measurement fmt st p t).acceleration_history
        = st.acceleration_history ∧
    (gnss_check_acceleration_measurement fmt st p t).trip_data.time_0_50
        = st.trip_data.time_0_50 ∧
    (gnss_check_acceleration_measurement fmt st p t).trip_data.reached_50kmh
        = st.trip_data.reached_50kmh ∧
    (gnss_check_acceleration_measurement fmt st p t).trip_data.acceleration_start_time
        = st.trip_data.acceleration_start_time ∧
    (p.speed * (18/5) < 30 →
      (gnss_check_acceleration_measurement fmt st p t).trip_data.time_0_30
        = st.trip_data.time_0_30) := by
  have h50n : ¬ (50 ≤ p.speed * (18/5)) := not_le.mpr h50
  by_cases hm : st.trip_data.measuring_acceleration = true
  case neg =>
    rw [check_not_measuring fmt st p t (by simpa using hm)]
    exact ⟨rfl, rfl, rfl, rfl, fun _ => rfl⟩
  case pos =>
    by_cases hf : p.fix_type = GnssFixType.FIX_NONE
    case pos =>
      unfold gnss_check_acceleration_measurement
      rw [if_pos (Or.inr hf)]
      exact ⟨rfl, rfl, rfl, rfl, fun _ => rfl⟩
    case neg =>
      by_cases h30 : st.trip_data.reached_30kmh = false ∧ 30 ≤ p.speed * (18/5)
      case pos =>
        by_cases htm : 60 < t - st.trip_data.acceleration_start_time
        all_goals
          refine ⟨?_, ?_, ?_, ?_, fun hlt => absurd h30.2 (not_le.mpr hlt)⟩
        all_goals
          simp [gnss_check_acceleration_measurement, gnss_stop_acceleration_measurement,
                hm, hf, h30, htm, h50n]
      case neg =>
        by_cases htm : 60 < t - st.trip_data.acceleration_start_time
        all_goals
          refine ⟨?_, ?_, ?_, ?_, fun _ => ?_⟩
        all_goals
          simp [gnss_check_acceleration_measurement, gnss_stop_acceleration_measurement,
                hm, hf, h30, htm, h50n]

theorem check_timeout_stops (fmt : ℤ → String) (st : GnssState) (p : GnssPoint) (t : ℤ)
    (h50 : p.speed * (18/5) < 50) (hfixp : p.fix_type ≠ GnssFixType.FIX_NONE)
    (htm : t - st.trip_data.acceleration_start_time > 60) :
    (gnss_check_acceleration_measurement fmt st p t).trip_data.measuring_acceleration
        = false := by
  have h50n : ¬ (50 ≤ p.speed * (18/5)) := not_le.mpr h50
  have htm2 : 60 < t - st.trip_data.acceleration_start_time := htm
  by_cases hm : st.trip_data.measuring_acceleration = true
  case neg =>
    rw [check_not_measuring fmt st p t (by simpa using hm)]
    simpa using hm
  case pos =>
    by_cases h30 : st.trip_data.reached_30kmh = false ∧ 30 ≤ p.speed * (18/5)
    all_goals
      simp [gnss_check_acceleration_measurement, gnss_stop_acceleration_measurement,
            hm, hfixp, h30, htm2, h50n]

theorem segAccum_distance (d : ℚ) (ts : ℤ) (seg : SegmentData) :
    (segAccum d ts seg).distance = seg.distance + d := by
  simp only [segAccum]
  split
  all_goals rfl

theorem updateLast_getLast {α : Type} (f : α → α) :
    ∀ l : List α, (updateLast f l).getLast? = l.getLast?.map f
  | [] => rfl
  | [_] => rfl
  | a :: b :: rest => by
      have ih := updateLast_getLast f (b :: rest)
      have hcons : updateLast f (a :: b :: rest) = a :: updateLast f (b :: rest) := rfl
      rw [hcons]
      cases hrest : updateLast f (b :: rest) with
      | nil =>
          have hlen := updateLast_length f (b :: rest)
          rw [hrest] at hlen
          simp at hlen
      | cons c cs =>
          rw [List.getLast?_cons_cons, List.getLast?_cons_cons, ← hrest, ih]

theorem updateCurrentSegment_getLast (td : TripData) (d : ℚ) (ts : ℤ) :
    (updateCurrentSegment td d ts).segments.getLast?.map (fun s => s.distance)
      = td.segments.getLast?.map (fun s => s.distance + d) ∨ td.segments = [] := by
  unfold updateCurrentSegment
  split
  · right; assumption
  · left
    simp only [updateLast_getLast, Option.map_map]
    cases td.segments.getLast? with
    | none => rfl
    | some s => simp [Function.comp, segAccum_distance]

theorem process_fix_total_distance (dist : ℚ → ℚ → ℚ → ℚ → ℚ) (fmt : ℤ → String)
    (st : GnssState) (p : GnssPoint) (now : ℤ)
    (hlast : st.has_last_point = true) (hrec : st.recording = true)
    (hfixp : p.fix_type ≠ GnssFixType.FIX_NONE) :
    (dist st.current_point.latitude st.current_point.longitude p.latitude p.longitude > 1/2 →
      (gnss_process_fix dist fmt st p now).trip_data.total_distance
        = st.trip_data.total_distance
          + dist st.current_point.latitude st.current_point.longitude p.latitude p.longitude) ∧
    (¬ (dist st.current_point.latitude st.current_point.longitude p.latitude p.longitude > 1/2) →
      (gnss_process_fix dist fmt st p now).trip_data.total_distance
        = st.trip_data.total_distance) := by
  have hhalf : (1 : ℚ)/2 = (2 : ℚ)⁻¹ := one_div 2
  constructor
  · intro hd
    have hd2 : (2 : ℚ)⁻¹ < dist st.current_point.latitude st.current_point.longitude
        p.latitude p.longitude := hhalf ▸ hd
    simp only [gnss_process_fix]
    simp [hlast, hrec, hfixp, hd2]
    split
    all_goals simp [updateCurrentSegment_proj, create_segment_proj]
  · intro hd
    have hd2 : ¬ ((2 : ℚ)⁻¹ < dist st.current_point.latitude st.current_point.longitude
        p.latitude p.longitude) := by rw [← hhalf]; exact hd
    simp only [gnss_process_fix]
    simp [hlast, hrec, hfixp, hd2]

theorem process_fix_segment_distance (dist : ℚ → ℚ → ℚ → ℚ → ℚ) (fmt : ℤ → String)
    (st : GnssState) (p : GnssPoint) (now : ℤ)
    (hlast : st.has_last_point = true) (hrec : st.recording = true)
    (hfixp : p.fix_type ≠ GnssFixType.FIX_NONE)
    (hen : st.segment_settings.enabled = false)
    (hne : st.trip_data.segments ≠ [])
    (hd : dist st.current_point.latitude st.current_point.longitude p.latitude p.longitude > 1/2) :
    (gnss_process_fix dist fmt st p now).trip_data.segments.getLast?.map (fun s => s.distance)
      = st.trip_data.segments.getLast?.map (fun s => s.distance
          + dist st.current_point.latitude st.current_point.longitude p.latitude p.longitude) := by
  have hd2 : (2 : ℚ)⁻¹ < dist st.current_point.latitude st.current_point.longitude
      p.latitude p.longitude := (one_div (2 : ℚ)) ▸ hd
  have hup := updateCurrentSegment_getLast
    { st.trip_data with total_distance := (st.trip_data.total_distance
        + dist st.current_point.latitude st.current_point.longitude p.latitude p.longitude) }
    (dist st.current_point.latitude st.current_point.longitude p.latitude p.longitude)
    p.timestamp
  rcases hup with hup | hup
  · simp only [gnss_process_fix]
    simp [hlast, hrec, hfixp, hen, hd2, hup]
  · exact absurd hup hne

theorem runChecks_slow (fmt : ℤ → String) :
    ∀ (inputs : List (GnssPoint × ℤ)) (st : GnssState),
    (∀ pr ∈ inputs, pr.1.speed * (18/5) < 50) →
    (runChecks fmt st inputs).acceleration_history = st.acceleration_history ∧
    (runChecks fmt st inputs).trip_data.time_0_50 = st.trip_data.time_0_50 ∧
    (runChecks fmt st inputs).trip_data.reached_50kmh = st.trip_data.reached_50kmh ∧
    (runChecks fmt st inputs).trip_data.acceleration_start_time
        = st.trip_data.acceleration_start_time ∧
    ((∀ pr ∈ inputs, pr.1.speed * (18/5) < 30) →
      (runChecks fmt st inputs).trip_data.time_0_30 = st.trip_data.time_0_30)
  | [], _, _ => ⟨rfl, rfl, rfl, rfl, fun _ => rfl⟩
  | (p, t) :: rest, st, hall => by
      have hp : p.speed * (18/5) < 50 := hall (p, t) (by simp)
      have hstep := check_slow_proj fmt st p t hp
      have hrest := runChecks_slow fmt rest (gnss_check_acceleration_measurement fmt st p t)
        (fun pr hpr => hall pr (List.mem_cons_of_mem _ hpr))
      refine ⟨?_, ?_, ?_, ?_, ?_⟩
      · exact hrest.1.trans hstep.1
      · exact hrest.2.1.trans hstep.2.1
      · exact hrest.2.2.1.trans hstep.2.2.1
      · exact hrest.2.2.2.1.trans hstep.2.2.2.1
      · intro h30
        have hp30 : p.speed * (18/5) < 30 := h30 (p, t) (by simp)
        exact (hrest.2.2.2.2 (fun pr hpr => h30 pr (List.mem_cons_of_mem _ hpr))).trans
          (hstep.2.2.2.2 hp30)

/-! ### Claim theorems -/

/-- C1 (code slip in the source): the spec says `gnss_get_position` updates
max_speed, duration, avg_speed and the altitude min/max on every accepted fix
while recording, but the function never writes any of these five trip fields:
for all inputs — any state, any raw sample, any clock — they are exactly the
values they had before the call. -/
theorem gnss_get_position_trip_stats_frozen (dist : ℚ → ℚ → ℚ → ℚ → ℚ)
    (fmt : ℤ → String) (st : GnssState) (readData : Option RawReceiverData)
    (now : ℤ) (point : GnssPoint) :
    (gnss_get_position dist fmt st readData now point).1.trip_data.max_speed
        = st.trip_data.max_speed ∧
    (gnss_get_position dist fmt st readData now point).1.trip_data.duration
        = st.trip_data.duration ∧
    (gnss_get_position dist fmt st readData now point).1.trip_data.avg_speed
        = st.trip_data.avg_speed ∧
    (gnss_get_position dist fmt st readData now point).1.trip_data.min_altitude
        = st.trip_data.min_altitude ∧
    (gnss_get_position dist fmt st readData now point).1.trip_data.max_altitude
        = st.trip_data.max_altitude := by
  cases readData with
  | none =>
      unfold gnss_get_position
      split
      all_goals exact ⟨rfl, rfl, rfl, rfl, rfl⟩
  | some posdat =>
      obtain ⟨b, hgap⟩ := gap_detect_frame st now
      have hgapt : (gnss_gap_detect st now).trip_data = st.trip_data := by rw [hgap]
      unfold gnss_get_position
      split
      · exact ⟨rfl, rfl, rfl, rfl, rfl⟩
      · split
        · exact ⟨rfl, rfl, rfl, rfl, rfl⟩
        · split
          all_goals refine ⟨?_, ?_, ?_, ?_, ?_⟩
          all_goals simp [detect_proj, process_fix_proj, hgapt]

/-- C2 counterexample: the claimed mapping says raw fix-mode code 1 yields
FIX_2D and every code of 2 or more yields FIX_3D; in the source, code 1
yields FIX_NONE and code 5 (≥ 2) also yields FIX_NONE. -/
theorem fixmode_classification_counterexample :
    fixModeToFixType 1 ≠ GnssFixType.FIX_2D ∧
    fixModeToFixType 1 = GnssFixType.FIX_NONE ∧
    fixModeToFixType 5 ≠ GnssFixType.FIX_3D ∧
    fixModeToFixType 5 = GnssFixType.FIX_NONE := by
  decide

/-- C2 (amended): `gnss_get_position` classifies the raw fix-mode code as:
code 2 → FIX_2D, codes 3 and 4 → FIX_3D, and every other code — including 0,
1, and everything of 5 or more — → FIX_NONE (code 0 is additionally rejected
by the `pos_fixmode != 0` guard before the switch runs). -/
theorem fixmode_classification_table (mode : ℕ) :
    fixModeToFixType mode =
      (if mode = 2 then GnssFixType.FIX_2D
       else if mode = 3 ∨ mode = 4 then GnssFixType.FIX_3D
       else GnssFixType.FIX_NONE) := by
  match mode with
  | 0 => rfl
  | 1 => rfl
  | 2 => rfl
  | 3 => rfl
  | 4 => rfl
  | n + 5 => rfl

/-- C3 (code slip in the source): the spec says a valid new fix rotates the
current fix into the previous fix and becomes the new current fix, but
`gnss_get_position` never assigns `g_current_point` and never sets
`g_has_last_point`: for all inputs the current fix and the has-last-point
flag are unchanged, so the newly built fix is dropped and the rotation
branch is unreachable in any run of the program. -/
theorem gnss_get_position_current_point_frozen (dist : ℚ → ℚ → ℚ → ℚ → ℚ)
    (fmt : ℤ → String) (st : GnssState) (readData : Option RawReceiverData)
    (now : ℤ) (point : GnssPoint) :
    (gnss_get_position dist fmt st readData now point).1.current_point
        = st.current_point ∧
    (gnss_get_position dist fmt st readData now point).1.has_last_point
        = st.has_last_point := by
  cases readData with
  | none =>
      unfold gnss_get_position
      split
      all_goals exact ⟨rfl, rfl⟩
  | some posdat =>
      obtain ⟨b, hgap⟩ := gap_detect_frame st now
      have hgc : (gnss_gap_detect st now).current_point = st.current_point := by rw [hgap]
      have hgh : (gnss_gap_detect st now).has_last_point = st.has_last_point := by rw [hgap]
      unfold gnss_get_position
      split
      · exact ⟨rfl, rfl⟩
      · split
        · exact ⟨rfl, rfl⟩
        · split
          all_goals refine ⟨?_, ?_⟩
          all_goals simp [detect_proj, process_fix_proj, hgc, hgh]

/-- C4 counterexample: in a recording state with a previous fix, a 600 m
(≥ 500 m) increment between consecutive fixes is NOT discarded:
total_distance grows from 0 to 600. -/
theorem large_increment_not_discarded :
    (gnss_get_position (distConst 600) fmt0 stRec (some posdat3) 100
        pointZero).1.trip_data.total_distance = 600 ∧
    stRec.trip_data.total_distance = 0 := by
  have hno : GnssFixType.FIX_3D ≠ GnssFixType.FIX_NONE := by decide
  constructor
  · norm_num [gnss_get_position, gnss_gap_detect, gnss_process_fix, gnss_detect_acceleration,
      gnss_create_new_segment, updateCurrentSegment, segAccum, updateLast, mkNewPoint,
      fixModeToFixType, segmentTimeSeconds, stRec, state0, trip0, seg0, settingsOn,
      point3D, pointZero, posdat3, distConst, fmt0, hno]
  · rfl

/-- C4 (amended): the only distance filter in `gnss_get_position` is the
0.5 m noise floor: an increment strictly above 0.5 m — in particular every
increment of 500 m or more — is added in full to total_distance and to the
open segment's distance, and only increments of at most 0.5 m are
discarded. -/
theorem distance_noise_floor_only (dist : ℚ → ℚ → ℚ → ℚ → ℚ) (fmt : ℤ → String)
    (st : GnssState) (posdat : RawReceiverData) (now : ℤ) (point : GnssPoint)
    (hrun : st.running = true) (hlast : st.has_last_point = true)
    (hrec : st.recording = true)
    (hfix : fixModeToFixType posdat.pos_fixmode ≠ GnssFixType.FIX_NONE) :
    (dist st.current_point.latitude st.current_point.longitude
        posdat.latitude posdat.longitude > 1/2 →
      (gnss_get_position dist fmt st (some posdat) now point).1.trip_data.total_distance
        = st.trip_data.total_distance
          + dist st.current_point.latitude st.current_point.longitude
              posdat.latitude posdat.longitude) ∧
    (dist st.current_point.latitude st.current_point.longitude
        posdat.latitude posdat.longitude ≤ 1/2 →
      (gnss_get_position dist fmt st (some posdat) now point).1.trip_data.total_distance
        = st.trip_data.total_distance) ∧
    (st.segment_settings.enabled = false → st.trip_data.segments ≠ [] →
      dist st.current_point.latitude st.current_point.longitude
        posdat.latitude posdat.longitude > 1/2 →
      ((gnss_get_position dist fmt st (some posdat) now point).1.trip_data.segments.getLast?).map
          (fun s => s.distance)
        = (st.trip_data.segments.getLast?).map
            (fun s => s.distance
              + dist st.current_point.latitude st.current_point.longitude
                  posdat.latitude posdat.longitude)) := by
  obtain ⟨b, hgap⟩ := gap_detect_frame st now
  have hmode : posdat.pos_fixmode ≠ 0 := by
    intro h0
    apply hfix
    rw [h0]
    rfl
  have hred : (gnss_get_position dist fmt st (some posdat) now point).1
      = gnss_detect_acceleration
          (gnss_process_fix dist fmt (gnss_gap_detect st now) (mkNewPoint posdat now) now) := by
    simp only [gnss_get_position]
    simp [hrun, hmode]
  have hgc : (gnss_gap_detect st now).current_point = st.current_point := by rw [hgap]
  have hgt : (gnss_gap_detect st now).trip_data = st.trip_data := by rw [hgap]
  have hgl : (gnss_gap_detect st now).has_last_point = true := by rw [hgap]; exact hlast
  have hgr : (gnss_gap_detect st now).recording = true := by rw [hgap]; exact hrec
  have hgs : (gnss_gap_detect st now).segment_settings = st.segment_settings := by rw [hgap]
  have hfixp : (mkNewPoint posdat now).fix_type ≠ GnssFixType.FIX_NONE := hfix
  have htot := process_fix_total_distance dist fmt (gnss_gap_detect st now)
    (mkNewPoint posdat now) now hgl hgr hfixp
  refine ⟨?_, ?_, ?_⟩
  · intro hd
    have hd2 : dist (gnss_gap_detect st now).current_point.latitude
        (gnss_gap_detect st now).current_point.longitude
        (mkNewPoint posdat now).latitude (mkNewPoint posdat now).longitude > 1/2 := by
      rw [hgc]; exact hd
    rw [hred]
    have := htot.1 hd2
    simp only [detect_proj]
    rw [this, hgc, hgt]
    rfl
  · intro hd
    have hd2 : ¬ (dist (gnss_gap_detect st now).current_point.latitude
        (gnss_gap_detect st now).current_point.longitude
        (mkNewPoint posdat now).latitude (mkNewPoint posdat now).longitude > 1/2) := by
      rw [hgc]; exact not_lt.mpr hd
    rw [hred]
    have := htot.2 hd2
    simp only [detect_proj]
    rw [this, hgt]
  · intro hen hne hd
    have hd2 : dist (gnss_gap_detect st now).current_point.latitude
        (gnss_gap_detect st now).current_point.longitude
        (mkNewPoint posdat now).latitude (mkNewPoint posdat now).longitude > 1/2 := by
      rw [hgc]; exact hd
    have hen2 : (gnss_gap_detect st now).segment_settings.enabled = false := by
      rw [hgs]; exact hen
    have hne2 : (gnss_gap_detect st now).trip_data.segments ≠ [] := by
      rw [hgt]; exact hne
    have hseg := process_fix_segment_distance dist fmt (gnss_gap_detect st now)
      (mkNewPoint posdat now) now hgl hgr hfixp hen2 hne2 hd2
    rw [hred]
    simp only [detect_proj]
    rw [hseg, hgc, hgt]
    rfl

/-- C4 witness: the amended noise-floor theorem evaluated at an explicit
recording state, once with a 600 m increment (added) and once with a 0.4 m
increment (discarded). -/
theorem distance_noise_floor_only_witness :
    (gnss_get_position (distConst 600) fmt0 stRec (some posdat3) 100
        pointZero).1.trip_data.total_distance
      = stRec.trip_data.total_distance + 600 ∧
    (gnss_get_position (distConst (2/5)) fmt0 stRec (some posdat3) 100
        pointZero).1.trip_data.total_distance
      = stRec.trip_data.total_distance ∧
    ((gnss_get_position (distConst 600) fmt0 stFixedSeg (some posdat3) 100
        pointZero).1.trip_data.segments.getLast?).map (fun s => s.distance)
      = (stFixedSeg.trip_data.segments.getLast?).map (fun s => s.distance + 600) :=
  ⟨(distance_noise_floor_only (distConst 600) fmt0 stRec posdat3 100 pointZero
      rfl rfl rfl (by decide)).1 (by norm_num [distConst]),
   (distance_noise_floor_only (distConst (2/5)) fmt0 stRec posdat3 100 pointZero
      rfl rfl rfl (by decide)).2.1 (by norm_num [distConst]),
   (distance_noise_floor_only (distConst 600) fmt0 stFixedSeg posdat3 100 pointZero
      rfl rfl rfl (by decide)).2.2 rfl (by decide) (by norm_num [distConst])⟩

/-- C5 counterexample: `gnss_get_acceleration_history` imposes no capacity
check when it loads records from the file — a history file that parses to 51
records leaves 51 (> 50) entries in the in-memory list. -/
theorem acceleration_history_load_uncapped :
    (gnss_get_acceleration_history [] (some (List.replicate 51 accelRec0))).length
      = 51 := by
  simp [gnss_get_acceleration_history]

/-- C5 (amended): `gnss_save_acceleration_data` maintains the 50-entry bound
— after any save the list has at most 50 entries, the new record sits at
index 0, and a save onto a full 50-entry list evicts exactly the oldest
(tail) entry — but `gnss_get_acceleration_history` does not enforce the
bound when loading from the file, so the invariant holds only for the save
path (the counterexample shows a 51-record file loading in full). -/
theorem acceleration_history_save_capacity (hist : List AccelerationData)
    (data : AccelerationData) :
    (gnss_save_acceleration_data hist data).length ≤ 50 ∧
    (gnss_save_acceleration_data hist data).head? = some data ∧
    (hist.length = 50 →
      gnss_save_acceleration_data hist data = data :: hist.take 49) := by
  simp only [gnss_save_acceleration_data]
  refine ⟨?_, ?_, ?_⟩
  · split
    · simp
    · next h => exact not_lt.mp h
  · split
    · rw [show (50 : ℕ) = 49 + 1 from rfl, List.take_succ_cons]
      rfl
    · rfl
  · intro h50
    rw [if_pos (by simp [h50])]
    rw [show (50 : ℕ) = 49 + 1 from rfl, List.take_succ_cons]

/-- C5 witness: saving onto a full 50-entry history keeps the bound, puts
the new record first, and drops the tail entry. -/
theorem acceleration_history_save_capacity_witness :
    (gnss_save_acceleration_data (List.replicate 50 accelRec0) accelRec0).length ≤ 50 ∧
    (gnss_save_acceleration_data (List.replicate 50 accelRec0) accelRec0).head?
      = some accelRec0 ∧
    gnss_save_acceleration_data (List.replicate 50 accelRec0) accelRec0
      = accelRec0 :: (List.replicate 50 accelRec0).take 49 :=
  ⟨(acceleration_history_save_capacity (List.replicate 50 accelRec0) accelRec0).1,
   (acceleration_history_save_capacity (List.replicate 50 accelRec0) accelRec0).2.1,
   (acceleration_history_save_capacity (List.replicate 50 accelRec0) accelRec0).2.2
     (by simp)⟩

/-- C6 (confirmed): once has_0_100_time is set, a fix-processing step
(`gnss_get_position`, the only caller of `gnss_detect_acceleration`) never
changes has_0_100_time or time_0_100 — whatever the sample, even one whose
speed reaches 100 km/h again — and `gnss_reset_trip` clears the flag and
re-arms the detector (accel_start := false). -/
theorem zero_to_hundred_latched_until_reset (dist : ℚ → ℚ → ℚ → ℚ → ℚ)
    (fmt : ℤ → String) (st : GnssState) (readData : Option RawReceiverData)
    (now : ℤ) (point : GnssPoint) (h : st.trip_data.has_0_100_time = true) :
    (gnss_get_position dist fmt st readData now point).1.trip_data.has_0_100_time = true ∧
    (gnss_get_position dist fmt st readData now point).1.trip_data.time_0_100
        = st.trip_data.time_0_100 ∧
    (∀ st2 : GnssState, (gnss_reset_trip st2).trip_data.has_0_100_time = false ∧
        (gnss_reset_trip st2).accel_start = false) := by
  have key : (gnss_get_position dist fmt st readData now point).1.trip_data.has_0_100_time
        = st.trip_data.has_0_100_time ∧
      (gnss_get_position dist fmt st readData now point).1.trip_data.time_0_100
        = st.trip_data.time_0_100 := by
    cases readData with
    | none =>
        unfold gnss_get_position
        split
        all_goals exact ⟨rfl, rfl⟩
    | some posdat =>
        obtain ⟨b, hgap⟩ := gap_detect_frame st now
        have hgapt : (gnss_gap_detect st now).trip_data = st.trip_data := by rw [hgap]
        unfold gnss_get_position
        split
        · exact ⟨rfl, rfl⟩
        · split
          · exact ⟨rfl, rfl⟩
          · next posdat2 heq =>
            split
            · dsimp only
              have hlat : (gnss_process_fix dist fmt (gnss_gap_detect st now)
                  (mkNewPoint posdat2 now) now).trip_data.has_0_100_time = true := by
                simp [process_fix_proj, hgapt, h]
              rw [detect_latched _ hlat]
              refine ⟨?_, ?_⟩
              all_goals simp [process_fix_proj, hgapt]
            · refine ⟨?_, ?_⟩
              all_goals simp [hgapt]
  exact ⟨key.1.trans h, key.2, fun st2 => ⟨rfl, rfl⟩⟩

/-- C6 witness: the latch theorem evaluated on a recording state whose
0-100 result is already latched (time 7 s), fed a 3D sample. -/
theorem zero_to_hundred_latched_until_reset_witness :
    (gnss_get_position (distConst 600) fmt0 stLatched (some posdat3) 100
        pointZero).1.trip_data.has_0_100_time = true ∧
    (gnss_get_position (distConst 600) fmt0 stLatched (some posdat3) 100
        pointZero).1.trip_data.time_0_100 = stLatched.trip_data.time_0_100 :=
  ⟨(zero_to_hundred_latched_until_reset (distConst 600) fmt0 stLatched
      (some posdat3) 100 pointZero rfl).1,
   (zero_to_hundred_latched_until_reset (distConst 600) fmt0 stLatched
      (some posdat3) 100 pointZero rfl).2.1⟩

/-- C7 (confirmed): arming a manual measurement sets time_0_30 and
time_0_50 to the −1 sentinel; over any run of check calls in which the
50 km/h threshold is never reached, the acceleration history is never
extended (so nothing is persisted), time_0_50 stays as it was (−1 after
arming), time_0_30 also stays put when 30 km/h is never reached, and a
check call more than 60 s after the start auto-stops the measurement
(save = false). -/
theorem manual_measurement_sentinels_and_timeout :
    (∀ (st : GnssState) (now : ℤ),
      st.current_point.fix_type ≠ GnssFixType.FIX_NONE →
      st.trip_data.measuring_acceleration = false →
      (gnss_start_acceleration_measurement st now).trip_data.time_0_30 = -1 ∧
      (gnss_start_acceleration_measurement st now).trip_data.time_0_50 = -1 ∧
      (gnss_start_acceleration_measurement st now).trip_data.measuring_acceleration = true) ∧
    (∀ (fmt : ℤ → String) (inputs : List (GnssPoint × ℤ)) (st : GnssState),
      (∀ pr ∈ inputs, pr.1.speed * (18/5) < 50) →
      (runChecks fmt st inputs).acceleration_history = st.acceleration_history ∧
      (runChecks fmt st inputs).trip_data.time_0_50 = st.trip_data.time_0_50 ∧
      ((∀ pr ∈ inputs, pr.1.speed * (18/5) < 30) →
        (runChecks fmt st inputs).trip_data.time_0_30 = st.trip_data.time_0_30)) ∧
    (∀ (fmt : ℤ → String) (st : GnssState) (p : GnssPoint) (t : ℤ),
      p.speed * (18/5) < 50 → p.fix_type ≠ GnssFixType.FIX_NONE →
      t - st.trip_data.acceleration_start_time > 60 →
      (gnss_check_acceleration_measurement fmt st p t).trip_data.measuring_acceleration
        = false) := by
  refine ⟨?_, ?_, ?_⟩
  · intro st now hfix hm
    unfold gnss_start_acceleration_measurement
    rw [if_neg (by simp [hfix, hm])]
    exact ⟨rfl, rfl, rfl⟩
  · intro fmt inputs st hall
    exact ⟨(runChecks_slow fmt inputs st hall).1,
           (runChecks_slow fmt inputs st hall).2.1,
           fun h30 => (runChecks_slow fmt inputs st hall).2.2.2.2 h30⟩
  · intro fmt st p t h50 hfixp htm
    exact check_timeout_stops fmt st p t h50 hfixp htm

/-- C7 witness: arming on a 3D fix yields the −1 sentinels; one slow
(3.6 km/h) check sample 61 s after the start leaves the history and both
sentinels untouched and auto-stops the measurement. -/
theorem manual_measurement_sentinels_and_timeout_witness :
    (gnss_start_acceleration_measurement stRec 5).trip_data.time_0_30 = -1 ∧
    (gnss_start_acceleration_measurement stRec 5).trip_data.time_0_50 = -1 ∧
    (runChecks fmt0 stMeas [(pointSlow, 61)]).acceleration_history
        = stMeas.acceleration_history ∧
    (runChecks fmt0 stMeas [(pointSlow, 61)]).trip_data.time_0_50
        = stMeas.trip_data.time_0_50 ∧
    (runChecks fmt0 stMeas [(pointSlow, 61)]).trip_data.time_0_30
        = stMeas.trip_data.time_0_30 ∧
    (gnss_check_acceleration_measurement fmt0 stMeas pointSlow 61).trip_data.measuring_acceleration
        = false := by
  have hall50 : ∀ pr ∈ [((pointSlow : GnssPoint), (61 : ℤ))], pr.1.speed * (18/5) < 50 := by
    intro pr hpr
    rw [List.mem_singleton] at hpr
    subst hpr
    norm_num [pointSlow, point3D]
  have hall30 : ∀ pr ∈ [((pointSlow : GnssPoint), (61 : ℤ))], pr.1.speed * (18/5) < 30 := by
    intro pr hpr
    rw [List.mem_singleton] at hpr
    subst hpr
    norm_num [pointSlow, point3D]
  refine ⟨(manual_measurement_sentinels_and_timeout.1 stRec 5 (by decide) rfl).1,
          (manual_measurement_sentinels_and_timeout.1 stRec 5 (by decide) rfl).2.1,
          (manual_measurement_sentinels_and_timeout.2.1 fmt0 [(pointSlow, 61)] stMeas hall50).1,
          (manual_measurement_sentinels_and_timeout.2.1 fmt0 [(pointSlow, 61)] stMeas hall50).2.1,
          (manual_measurement_sentinels_and_timeout.2.1 fmt0 [(pointSlow, 61)] stMeas hall50).2.2 hall30,
          manual_measurement_sentinels_and_timeout.2.2 fmt0 stMeas pointSlow 61
            (by norm_num [pointSlow, point3D]) (by decide) (by decide)⟩

/-- C8 (confirmed): the fix-loss flag is set exactly once and idempotently
— a poll that finds the flag already set changes nothing, and the first
qualifying poll flips only the flag; the first counted fix after resumption
creates exactly one new segment and clears the flag; and a counted fix with
the flag clear and no gap creates no segment at all. -/
theorem fix_loss_flagged_once_single_new_segment (dist : ℚ → ℚ → ℚ → ℚ → ℚ)
    (fmt : ℤ → String) (st : GnssState) (posdat : RawReceiverData) (now : ℤ)
    (point : GnssPoint) :
    (st.running = true → st.has_lost_fix = true → posdat.pos_fixmode = 0 →
      gnss_get_position dist fmt st (some posdat) now point = (st, true, point)) ∧
    (st.running = true → st.has_lost_fix = false → st.recording = true →
      st.segment_settings.enabled = true → st.last_gps_time > 0 →
      now - st.last_gps_time ≥ (segmentTimeSeconds st.segment_settings : ℤ) →
      posdat.pos_fixmode = 0 →
      gnss_get_position dist fmt st (some posdat) now point
        = ({ st with has_lost_fix := true }, true, point)) ∧
    (st.running = true → st.has_lost_fix = true → st.has_last_point = true →
      st.recording = true → st.segment_settings.enabled = true →
      fixModeToFixType posdat.pos_fixmode ≠ GnssFixType.FIX_NONE →
      dist st.current_point.latitude st.current_point.longitude
        posdat.latitude posdat.longitude > 1/2 →
      (gnss_get_position dist fmt st (some posdat) now point).1.trip_data.segments.length
          = st.trip_data.segments.length + 1 ∧
      (gnss_get_position dist fmt st (some posdat) now point).1.has_lost_fix = false) ∧
    (st.running = true → st.has_lost_fix = false →
      now - st.last_gps_time < (segmentTimeSeconds st.segment_settings : ℤ) →
      (gnss_get_position dist fmt st (some posdat) now point).1.trip_data.segments.length
          = st.trip_data.segments.length ∧
      (gnss_get_position dist fmt st (some posdat) now point).1.has_lost_fix = false) := by
  refine ⟨?_, ?_, ?_, ?_⟩
  · intro hrun hflag h0
    simp only [gnss_get_position]
    simp [hrun, h0, gap_detect_latched st now hflag]
  · intro hrun hflag hrec hen hgl hgaptime h0
    simp only [gnss_get_position]
    simp [hrun, h0, gap_detect_sets st now hrec hen hgl hgaptime hflag]
  · intro hrun hflag hlp hrec hen hfix hd
    have hmode : posdat.pos_fixmode ≠ 0 := by
      intro h0
      apply hfix
      rw [h0]
      rfl
    have hred : (gnss_get_position dist fmt st (some posdat) now point).1
        = gnss_detect_acceleration
            (gnss_process_fix dist fmt (gnss_gap_detect st now) (mkNewPoint posdat now) now) := by
      simp only [gnss_get_position]
      simp [hrun, hmode]
    rw [gap_detect_latched st now hflag] at hred
    have hres := process_fix_resume dist fmt st (mkNewPoint posdat now) now
      hlp hrec hfix hflag hen hd
    constructor
    · rw [hred]
      simp only [detect_proj]
      exact hres.1
    · rw [hred]
      simp only [detect_proj]
      exact hres.2
  · intro hrun hflag hng
    have hgapid := gap_detect_no_gap st now hng
    by_cases h0 : posdat.pos_fixmode = 0
    · have hid : gnss_get_position dist fmt st (some posdat) now point = (st, true, point) := by
        simp only [gnss_get_position]
        simp [hrun, h0, hgapid]
      rw [hid]
      exact ⟨rfl, hflag⟩
    · have hred : (gnss_get_position dist fmt st (some posdat) now point).1
          = gnss_detect_acceleration
              (gnss_process_fix dist fmt st (mkNewPoint posdat now) now) := by
        simp only [gnss_get_position]
        simp [hrun, h0, hgapid]
      have hnr := process_fix_no_resume dist fmt st (mkNewPoint posdat now) now hflag
      constructor
      · rw [hred]
        simp only [detect_proj]
        exact hnr.1
      · rw [hred]
        simp only [detect_proj]
        exact hnr.2

/-- C8 witness: the four clauses evaluated on explicit states — a flagged
state polled with no fix (unchanged), a 301 s gap poll (flag set), the first
counted 600 m fix after the loss (one new segment, flag cleared), and a
fresh counted fix (no new segment). -/
theorem fix_loss_flagged_once_single_new_segment_witness :
    gnss_get_position (distConst 600) fmt0 stLost (some posdat0) 100 pointZero
      = (stLost, true, pointZero) ∧
    gnss_get_position (distConst 600) fmt0 stGapReady (some posdat0) 302 pointZero
      = ({ stGapReady with has_lost_fix := true }, true, pointZero) ∧
    (gnss_get_position (distConst 600) fmt0 stLost (some posdat3) 100
        pointZero).1.trip_data.segments.length
      = stLost.trip_data.segments.length + 1 ∧
    (gnss_get_position (distConst 600) fmt0 stLost (some posdat3) 100
        pointZero).1.has_lost_fix = false ∧
    (gnss_get_position (distConst 600) fmt0 stFresh (some posdat3) 100
        pointZero).1.trip_data.segments.length
      = stFresh.trip_data.segments.length ∧
    (gnss_get_position (distConst 600) fmt0 stFresh (some posdat3) 100
        pointZero).1.has_lost_fix = false := by
  refine ⟨(fix_loss_flagged_once_single_new_segment (distConst 600) fmt0 stLost
            posdat0 100 pointZero).1 rfl rfl rfl,
          (fix_loss_flagged_once_single_new_segment (distConst 600) fmt0 stGapReady
            posdat0 302 pointZero).2.1 rfl rfl rfl rfl (by decide) (by decide) rfl,
          ?_, ?_, ?_, ?_⟩
  · exact ((fix_loss_flagged_once_single_new_segment (distConst 600) fmt0 stLost
      posdat3 100 pointZero).2.2.1 rfl rfl rfl rfl rfl (by decide)
      (by norm_num [distConst])).1
  · exact ((fix_loss_flagged_once_single_new_segment (distConst 600) fmt0 stLost
      posdat3 100 pointZero).2.2.1 rfl rfl rfl rfl rfl (by decide)
      (by norm_num [distConst])).2
  · exact ((fix_loss_flagged_once_single_new_segment (distConst 600) fmt0 stFresh
      posdat3 100 pointZero).2.2.2 rfl rfl (by decide)).1
  · exact ((fix_loss_flagged_once_single_new_segment (distConst 600) fmt0 stFresh
      posdat3 100 pointZero).2.2.2 rfl rfl (by decide)).2

/-- C9 (confirmed): `gnss_get_position` never writes through its `point`
argument — the caller's buffer is returned bit-identical for every input —
and in particular this also holds on a call that returns true for a valid
new 3D fix. -/
theorem point_buffer_never_written :
    (∀ (dist : ℚ → ℚ → ℚ → ℚ → ℚ) (fmt : ℤ → String) (st : GnssState)
        (readData : Option RawReceiverData) (now : ℤ) (point : GnssPoint),
      (gnss_get_position dist fmt st readData now point).2.2 = point) ∧
    (gnss_get_position (distConst 600) fmt0 stRec (some posdat3) 100 pointZero).2.1
      = true := by
  constructor
  · intro dist fmt st readData now point
    unfold gnss_get_position
    split
    · rfl
    · cases readData with
      | none => rfl
      | some posdat =>
          split
          · rfl
          · split
            all_goals rfl
  · decide

/-- C10 (confirmed): `gnss_get_segment_data` and
`gnss_get_acceleration_data` return nullptr (none) for every index at or
beyond the current list size, and a pointer to the element at the index for
every index strictly below it (for the acceleration accessor, the size of
the list after its implicit load-from-file step). -/
theorem index_bounds_checked :
    (∀ (segments : List SegmentData) (index : ℕ),
      segments.length ≤ index → gnss_get_segment_data segments index = none) ∧
    (∀ (segments : List SegmentData) (index : ℕ) (h : index < segments.length),
      gnss_get_segment_data segments index = some (segments.get ⟨index, h⟩)) ∧
    (∀ (mem : List AccelerationData) (fileRecs : Option (List AccelerationData)) (index : ℕ),
      (if mem.isEmpty then gnss_get_acceleration_history mem fileRecs else mem).length ≤ index →
      gnss_get_acceleration_data mem fileRecs index = none) ∧
    (∀ (mem : List AccelerationData) (fileRecs : Option (List AccelerationData)) (index : ℕ)
      (h : index < (if mem.isEmpty then gnss_get_acceleration_history mem fileRecs else mem).length),
      gnss_get_acceleration_data mem fileRecs index
        = some ((if mem.isEmpty then gnss_get_acceleration_history mem fileRecs else mem).get
            ⟨index, h⟩)) := by
  refine ⟨?_, ?_, ?_, ?_⟩
  · intro segments index h
    unfold gnss_get_segment_data
    rw [if_neg (not_lt.mpr h)]
  · intro segments index h
    unfold gnss_get_segment_data
    rw [if_pos h]
    exact List.getElem?_eq_getElem h
  · intro mem fileRecs index h
    simp only [gnss_get_acceleration_data]
    rw [if_pos h]
  · intro mem fileRecs index h
    simp only [gnss_get_acceleration_data]
    rw [if_neg (not_le.mpr h)]
    exact List.getElem?_eq_getElem h

/-- C10 witness: both accessors evaluated at an in-range and an
out-of-range index on one-element lists (for the acceleration accessor,
loaded from a one-record file). -/
theorem index_bounds_checked_witness :
    gnss_get_segment_data [seg0] 1 = none ∧
    gnss_get_segment_data [seg0] 0 = some seg0 ∧
    gnss_get_acceleration_data [] (some [accelRec0]) 1 = none ∧
    gnss_get_acceleration_data [] (some [accelRec0]) 0 = some accelRec0 :=
  ⟨index_bounds_checked.1 [seg0] 1 (by decide),
   (index_bounds_checked.2.1 [seg0] 0 (by decide)).trans rfl,
   index_bounds_checked.2.2.1 [] (some [accelRec0]) 1 (by decide),
   (index_bounds_checked.2.2.2 [] (some [accelRec0]) 0 (by decide)).trans rfl⟩

end SpresenseGnss
